import Mathlib

/-!
Verification of the `unattend_iso_file` resource lifecycle
(`internal/provider/iso_resource.go`) of the terraform-provider-unattend
repository, as a shallow embedding in Lean.

Modelling notes (external collaborators, per the repository's imports):

* `types.String` of the terraform-plugin-framework is a tri-state value
  (null / unknown / known `s`).  Its `String()` method — the one the source
  calls — returns a human-readable representation: `"<null>"`, `"<unknown>"`,
  or `fmt.Sprintf("%q", s)` for a known value, i.e. the value wrapped in
  double quotes with Go escaping.  It is *not* the raw value (`ValueString()`
  would be).  We embed `%q` exactly on the ASCII range; runes ≥ 0x80 are
  passed through (Go consults `strconv.IsPrint` unicode tables there, which
  is irrelevant to every statement below — all that matters is that the
  result is quote-wrapped).

* The iso9660 library is a black box building a list of (name, content)
  entries and serialising them with a volume name; we model the serialised
  image abstractly as that data, and each fallible call with a failure flag
  in an environment record (`GoEnv`).

* The OS filesystem is an association list from path to file data.
  `os.CreateTemp(dir, pat)` rejects a pattern containing a separator and
  otherwise creates a fresh file at `dir ++ "/" ++ name` where `name` is
  `pat` with its last `*` replaced by (or, with no `*`, suffixed with) a
  random string; the random string is an oracle parameter of the
  environment, and the OS freshness guarantee is a hypothesis where a
  theorem needs it.  `os.Create(path)` creates or truncates `path`.
  Go `*os.File` handles are tracked in an `openHandles` list; `Close`
  would remove a handle, and the source never calls it.
-/

/-- Tri-state string value of the terraform-plugin-framework
(`basetypes.StringValue`). -/
inductive TFString where
  | null
  | unknown
  | value (s : String)
deriving DecidableEq

/-- Lower-case hex digit, as used by Go's `strconv` escaping. -/
def hexDigit (n : Nat) : Char :=
  if n < 10 then Char.ofNat (48 + n) else Char.ofNat (87 + n)

/-- Go `strconv.Quote` escaping of a single character (exact on ASCII;
runes ≥ 0x80 pass through, see the header note). -/
def goQuoteChar (c : Char) : List Char :=
  if c = '"' then ['\\', '"']
  else if c = '\\' then ['\\', '\\']
  else if 0x20 ≤ c.toNat ∧ c.toNat ≤ 0x7e then [c]
  else if c.toNat = 0x07 then ['\\', 'a']
  else if c.toNat = 0x08 then ['\\', 'b']
  else if c.toNat = 0x0c then ['\\', 'f']
  else if c = '\n' then ['\\', 'n']
  else if c = '\r' then ['\\', 'r']
  else if c = '\t' then ['\\', 't']
  else if c.toNat = 0x0b then ['\\', 'v']
  else if c.toNat < 0x20 ∨ c.toNat = 0x7f then
    ['\\', 'x', hexDigit (c.toNat / 16), hexDigit (c.toNat % 16)]
  else [c]

/-- Go `fmt.Sprintf("%q", s)` = `strconv.Quote s`: the string wrapped in
double quotes, characters escaped. -/
def goQuote (s : String) : String :=
  String.mk ('"' :: ((s.toList.map goQuoteChar).flatten ++ ['"']))

/-- The `String()` method of `basetypes.StringValue` — what the source calls
on every attribute: `"<null>"` / `"<unknown>"` / the `%q`-quoted value. -/
def TFString.goString : TFString → String
  | .null => "<null>"
  | .unknown => "<unknown>"
  | .value s => goQuote s

/-- `UnattendedISOResourceModel`: the resource data model
(`tfsdk` fields id, file_name, path_override, xml_content, result_path). -/
structure UnattendedISOResourceModel where
  Id : TFString
  FileName : TFString
  PathOverride : TFString
  XMLContent : TFString
  ResultPath : TFString
deriving DecidableEq

/-- An ISO-9660 image as produced by `isoWriter.WriteTo(buf, volumeName)`,
modelled abstractly by its volume name and its (file name, content)
entries (the iso9660 library is a black box; serialisation is injective). -/
structure ISOImage where
  volumeName : String
  entries : List (String × String)
deriving DecidableEq

/-- Content of a file on disk: freshly created/truncated and empty, or the
serialised image bytes written by `file.Write(b.Bytes())`. -/
inductive FileData where
  | empty
  | image (img : ISOImage)
deriving DecidableEq

/-- The local filesystem: paths mapped to file data; the head of the list
shadows older entries for the same path. -/
def FS := List (String × FileData)

instance : DecidableEq FS := by
  unfold FS; infer_instance

/-- Create-or-truncate a path (what both `os.Create` and a successful
`os.CreateTemp` do before any bytes are written, and what `file.Write`
updates). -/
def fsSet (fs : FS) (p : String) (d : FileData) : FS := (p, d) :: fs

/-- Look up the current content of a path. -/
def fsLookup (fs : FS) (p : String) : Option FileData :=
  (List.find? (fun e => e.1 == p) fs).map (fun e => e.2)

/-- Environment of one `Create` run: the outcome of each fallible
collaborator call, plus the random component the OS temp-file mechanism
picks for `os.CreateTemp`. -/
structure GoEnv where
  planGetError : Bool
  newWriterFails : Bool
  addFileFails : Bool
  writeToFails : Bool
  cleanupFails : Bool
  createTempFails : Bool
  createTempRand : String
  createFails : Bool
  fileWriteFails : Bool
deriving DecidableEq

/-- Split a temp-file pattern at its last `*`, as `os.CreateTemp` does
(`prefix, suffix = pattern[:lastIndex('*')], pattern[lastIndex('*')+1:]`);
`none` when the pattern has no `*`. -/
def splitLastStar : List Char → Option (List Char × List Char)
  | [] => none
  | c :: cs =>
    match splitLastStar cs with
    | some (p, s) => some (c :: p, s)
    | none => if c = '*' then some ([], cs) else none

/-- The file name `os.CreateTemp` derives from its pattern and the random
string: the random string replaces the last `*`, or is appended when the
pattern has none. -/
def tempPatternName (pat rand : String) : String :=
  match splitLastStar pat.toList with
  | some (p, s) => String.mk (p ++ rand.toList ++ s)
  | none => pat ++ rand

/-- Result of `Create`: whether `resp.Diagnostics` holds an error, the
tracked state committed by `resp.State.Set` (none when never reached), the
filesystem after the run, and the `*os.File` handles still open at return. -/
structure CreateResult where
  diagsHasError : Bool
  state : Option UnattendedISOResourceModel
  fs : FS
  openHandles : List String
deriving DecidableEq

/-- `UnattendedISOResource.Create`, line by line from
`internal/provider/iso_resource.go` (lines 98–183):
plan decode; `data.Id = "example-id"`; `iso9660.NewWriter` with deferred
`Cleanup`; `if data.XMLContent.String() != ""` add `unattend.xml` with
content `data.XMLContent.String()`; `WriteTo(&b, "unattend")`;
then `if data.PathOverride.String() != "tmp"` →
`os.CreateTemp("/tmp", data.FileName.String())` else
`os.Create(data.PathOverride.String() + data.FileName.String())`;
write the bytes; record `file.Name()` as result_path; `resp.State.Set`.
No `file.Close()` appears anywhere in the source. -/
def Create (plan : UnattendedISOResourceModel) (env : GoEnv) (fs : FS) :
    CreateResult :=
  if env.planGetError then ⟨true, none, fs, []⟩
  else
    let data : UnattendedISOResourceModel :=
      { plan with Id := TFString.value "example-id" }
    if env.newWriterFails then ⟨true, none, fs, []⟩
    else
      -- from here on `isoWriter.Cleanup()` is deferred; on the success
      -- path its failure is the only remaining diagnostics source
      if data.XMLContent.goString ≠ "" ∧ env.addFileFails then ⟨true, none, fs, []⟩
      else
        let entries : List (String × String) :=
          if data.XMLContent.goString ≠ "" then
            [("unattend.xml", data.XMLContent.goString)]
          else []
        if env.writeToFails then ⟨true, none, fs, []⟩
        else
          let img : ISOImage := ⟨"unattend", entries⟩
          if data.PathOverride.goString ≠ "tmp" then
            let pat := data.FileName.goString
            if pat.toList.contains '/' ∨ env.createTempFails then ⟨true, none, fs, []⟩
            else
              let p := "/tmp/" ++ tempPatternName pat env.createTempRand
              let fs1 := fsSet fs p FileData.empty
              if env.fileWriteFails then ⟨true, none, fs1, [p]⟩
              else
                ⟨env.cleanupFails,
                 some { data with ResultPath := TFString.value p },
                 fsSet fs1 p (FileData.image img), [p]⟩
          else
            let p := data.PathOverride.goString ++ data.FileName.goString
            if env.createFails then ⟨true, none, fs, []⟩
            else
              let fs1 := fsSet fs p FileData.empty
              if env.fileWriteFails then ⟨true, none, fs1, [p]⟩
              else
                ⟨env.cleanupFails,
                 some { data with ResultPath := TFString.value p },
                 fsSet fs1 p (FileData.image img), [p]⟩

/-- Result of `Read`: diagnostics flag, the state re-emitted by
`resp.State.Set`, and the filesystem (which `Read` never touches). -/
structure ReadResult where
  diagsHasError : Bool
  state : UnattendedISOResourceModel
  fs : FS
deriving DecidableEq

/-- `UnattendedISOResource.Read` (lines 185–205): decode the prior state
into `data`, return on error, `resp.State.Set(ctx, &data)`.  No other
statement — in particular no filesystem call. -/
def Read (prior : UnattendedISOResourceModel) (getError : Bool) (fs : FS) :
    ReadResult :=
  if getError then ⟨true, prior, fs⟩ else ⟨false, prior, fs⟩

/-- Result of `Update`: diagnostics flag, the new tracked state, the
filesystem (which `Update` never touches). -/
structure UpdateResult where
  diagsHasError : Bool
  newState : UnattendedISOResourceModel
  fs : FS
deriving DecidableEq

/-- `UnattendedISOResource.Update` (lines 207–227): decode the merged plan
into `data`, return on error, `resp.State.Set(ctx, &data)`.  No image
rebuild, no filesystem call. -/
def Update (plan prior : UnattendedISOResourceModel) (getError : Bool)
    (fs : FS) : UpdateResult :=
  if getError then ⟨true, prior, fs⟩ else ⟨false, plan, fs⟩

/-- Result of `Delete`: diagnostics flag, whether the framework removed the
tracked state (it does exactly when the method returns without error), and
the filesystem (which `Delete` never touches). -/
structure DeleteResult where
  diagsHasError : Bool
  stateRemoved : Bool
  fs : FS
deriving DecidableEq

/-- `UnattendedISOResource.Delete` (lines 229–246): decode the prior state,
return on error, and nothing else — no `os.Remove`, no filesystem call; the
host framework then drops the tracked state. -/
def Delete (prior : UnattendedISOResourceModel) (getError : Bool) (fs : FS) :
    DeleteResult :=
  if getError then ⟨true, false, fs⟩ else ⟨false, true, fs⟩

/-- The destination path every run of `Create` that reaches the write uses:
since `String()` of a `types.String` is never the bare `"tmp"`, the branch
`data.PathOverride.String() != "tmp"` is always taken and the destination is
`os.CreateTemp("/tmp", data.FileName.String())`. -/
def tempPathOf (plan : UnattendedISOResourceModel) (env : GoEnv) : String :=
  "/tmp/" ++ tempPatternName plan.FileName.goString env.createTempRand

/-- The image every run of `Create` builds: since `String()` of
`data.XMLContent` is never empty, the `unattend.xml` entry is always added,
with the quoted representation as its content. -/
def imgOf (plan : UnattendedISOResourceModel) : ISOImage :=
  ⟨"unattend", [("unattend.xml", plan.XMLContent.goString)]⟩

/-- Environment in which every collaborator call succeeds and the OS picks
`123` as the temp-name random component. -/
def okEnv : GoEnv := ⟨false, false, false, false, false, false, "123", false, false⟩

/-- Same as `okEnv` with temp-name random component `456`. -/
def okEnv2 : GoEnv := ⟨false, false, false, false, false, false, "456", false, false⟩

/-- Environment in which `file.Write` fails. -/
def failWriteEnv : GoEnv := ⟨false, false, false, false, false, false, "123", false, true⟩

/-- Environment in which `iso9660.NewWriter` fails. -/
def newWriterFailEnv : GoEnv := ⟨false, true, false, false, false, false, "123", false, false⟩

/-- Plan data declaring file_name `answer.iso`, path_override `/data/`,
xml_content `<x/>` (id and result_path unknown in the plan, as computed
attributes are before Create). -/
def planData : UnattendedISOResourceModel :=
  ⟨TFString.unknown, TFString.value "answer.iso", TFString.value "/data/",
   TFString.value "<x/>", TFString.unknown⟩

/-- Plan data with the sentinel default path_override `tmp`. -/
def planTmpA : UnattendedISOResourceModel :=
  ⟨TFString.unknown, TFString.value "a.iso", TFString.value "tmp",
   TFString.value "<x/>", TFString.unknown⟩

/-- A second declaration with the sentinel default path_override `tmp`. -/
def planTmpB : UnattendedISOResourceModel :=
  ⟨TFString.unknown, TFString.value "b.iso", TFString.value "tmp",
   TFString.value "<y/>", TFString.unknown⟩

/-- Plan data whose xml_content is the empty string. -/
def planEmptyXml : UnattendedISOResourceModel :=
  ⟨TFString.unknown, TFString.value "a.iso", TFString.value "tmp",
   TFString.value "", TFString.unknown⟩

/-- The state `Create planData okEnv []` commits. -/
def cSt1 : UnattendedISOResourceModel :=
  ⟨TFString.value "example-id", TFString.value "answer.iso", TFString.value "/data/",
   TFString.value "<x/>", TFString.value "/tmp/\"answer.iso\"123"⟩

/-- The state `Create planTmpA okEnv []` commits. -/
def cStA : UnattendedISOResourceModel :=
  ⟨TFString.value "example-id", TFString.value "a.iso", TFString.value "tmp",
   TFString.value "<x/>", TFString.value "/tmp/\"a.iso\"123"⟩

/-- The state the second create (`planTmpB`, random component `456`) commits. -/
def cStB : UnattendedISOResourceModel :=
  ⟨TFString.value "example-id", TFString.value "b.iso", TFString.value "tmp",
   TFString.value "<y/>", TFString.value "/tmp/\"b.iso\"456"⟩

lemma goQuote_data (s : String) :
    (goQuote s).data = '"' :: ((s.toList.map goQuoteChar).flatten ++ ['"']) := rfl

/-- The `String()` representation of a `types.String` is never the empty
string: known values are quote-wrapped, null and unknown are sentinels. -/
lemma goString_ne_empty (x : TFString) : x.goString ≠ "" := by
  cases x with
  | null => decide
  | unknown => decide
  | value s =>
      intro h
      have h' := congrArg String.data h
      rw [TFString.goString, goQuote_data] at h'
      rw [show ("" : String).data = [] from rfl] at h'
      exact List.noConfusion h'

/-- The `String()` representation of a `types.String` is never the bare
`tmp` — even for the known value `tmp` it is `"tmp"` with literal quotes —
so the source's sentinel comparison always takes the CreateTemp branch. -/
lemma goString_ne_tmp (x : TFString) : x.goString ≠ "tmp" := by
  cases x with
  | null => decide
  | unknown => decide
  | value s =>
      intro h
      have h' := congrArg String.data h
      rw [TFString.goString, goQuote_data] at h'
      rw [show ("tmp" : String).data = ['t', 'm', 'p'] from rfl] at h'
      injection h' with h1 _
      exact absurd h1 (by decide)

/-- When every step succeeds, `Create` commits the plan with the constant
id and the temp path as result_path, and writes the image there. -/
lemma create_of_flags (plan : UnattendedISOResourceModel) (env : GoEnv) (fs : FS)
    (h1 : env.planGetError = false) (h2 : env.newWriterFails = false)
    (h3 : env.addFileFails = false) (h4 : env.writeToFails = false)
    (h5 : plan.FileName.goString.toList.contains '/' = false)
    (h6 : env.createTempFails = false) (h7 : env.fileWriteFails = false) :
    Create plan env fs =
      ⟨env.cleanupFails,
       some { plan with
              Id := TFString.value "example-id"
              ResultPath := TFString.value (tempPathOf plan env) },
       fsSet (fsSet fs (tempPathOf plan env) FileData.empty)
         (tempPathOf plan env) (FileData.image (imgOf plan)),
       [tempPathOf plan env]⟩ := by
  have h5' : '/' ∉ plan.FileName.goString.data := by simpa using h5
  simp [Create, h1, h2, h3, h4, h5', h6, h7, goString_ne_empty, goString_ne_tmp,
    tempPathOf, imgOf]

/-- Any failing step among plan decode, writer initialisation, file add,
serialisation, temp-file creation or byte write makes `Create` return with
an error and without ever reaching `resp.State.Set`. -/
lemma create_state_none_of_flag (plan : UnattendedISOResourceModel) (env : GoEnv) (fs : FS)
    (h : env.planGetError = true ∨ env.newWriterFails = true ∨
         env.addFileFails = true ∨ env.writeToFails = true ∨
         env.createTempFails = true ∨ env.fileWriteFails = true) :
    (Create plan env fs).state = none ∧ (Create plan env fs).diagsHasError = true := by
  obtain ⟨p, nw, af, wt, cl, ctf, rand, cf, fwf⟩ := env
  cases p <;> cases nw <;> cases af <;> cases wt <;> cases ctf <;> cases fwf <;>
    simp_all [Create, goString_ne_empty, goString_ne_tmp] <;>
    by_cases hc : plan.FileName.goString.toList.contains '/' = true <;>
    simp_all

/-- A committed state means every fallible step succeeded. -/
lemma create_success_flags (plan : UnattendedISOResourceModel) (env : GoEnv) (fs : FS)
    (st : UnattendedISOResourceModel)
    (h : (Create plan env fs).state = some st) :
    env.planGetError = false ∧ env.newWriterFails = false ∧
    env.addFileFails = false ∧ env.writeToFails = false ∧
    plan.FileName.goString.toList.contains '/' = false ∧
    env.createTempFails = false ∧ env.fileWriteFails = false := by
  obtain ⟨p, nw, af, wt, cl, ctf, rand, cf, fwf⟩ := env
  cases p <;> cases nw <;> cases af <;> cases wt <;> cases ctf <;> cases fwf <;>
    by_cases hc : plan.FileName.goString.toList.contains '/' = true <;>
    simp_all [Create, goString_ne_empty, goString_ne_tmp]

lemma fsLookup_fsSet (fs : FS) (p : String) (d : FileData) :
    fsLookup (fsSet fs p d) p = some d := by
  simp [fsLookup, fsSet]

/-- Characterisation of a successful `Create`: the committed state and the
filesystem it leaves behind. -/
lemma create_state_eq_of_success (plan : UnattendedISOResourceModel) (env : GoEnv)
    (fs : FS) (st : UnattendedISOResourceModel)
    (h : (Create plan env fs).state = some st) :
    st = { plan with
           Id := TFString.value "example-id"
           ResultPath := TFString.value (tempPathOf plan env) } ∧
    (Create plan env fs).fs =
      fsSet (fsSet fs (tempPathOf plan env) FileData.empty) (tempPathOf plan env)
        (FileData.image (imgOf plan)) := by
  obtain ⟨f1, f2, f3, f4, f5, f6, f7⟩ := create_success_flags plan env fs st h
  have e := create_of_flags plan env fs f1 f2 f3 f4 f5 f6 f7
  rw [e] at h
  exact ⟨(Option.some.inj h).symm, by rw [e]⟩

/-- Claim C1: the claim says a non-sentinel path_override makes Create write
the image to the literal concatenation path_override ++ file_name and record
it as result_path.  The code does not: because `PathOverride.String()` is the
quoted representation it never equals `tmp`, so the `os.CreateTemp("/tmp",
FileName.String())` branch always runs.  On override `/data/` with file name
`answer.iso` (everything succeeding, random component `123`) the committed
result_path is `/tmp/"answer.iso"123`, not `/data/answer.iso`, and no file
exists at `/data/answer.iso`. -/
theorem create_ignores_path_override_bug :
    (Create planData okEnv []).state = some cSt1
    ∧ cSt1.ResultPath = TFString.value "/tmp/\"answer.iso\"123"
    ∧ TFString.value "/tmp/\"answer.iso\"123" ≠ TFString.value "/data/answer.iso"
    ∧ fsLookup (Create planData okEnv []).fs "/data/answer.iso" = none
    ∧ fsLookup (Create planData okEnv []).fs "/tmp/\"answer.iso\"123"
        = some (FileData.image ⟨"unattend", [("unattend.xml", "\"<x/>\"")]⟩) := by
  decide

/-- Claim C2: with path_override equal to the sentinel `tmp`, a successful
Create writes the built image to a file in the OS temp directory `/tmp`
whose name the temp-file mechanism derives from file_name's pattern and a
fresh random component, records that path as result_path, and a repeated
invocation (with the OS freshness guarantee for the second random choice)
records a distinct path. -/
theorem create_tmp_sentinel_unique_temp_path
    (plan₁ plan₂ : UnattendedISOResourceModel) (env₁ env₂ : GoEnv) (fs : FS)
    (st₁ st₂ : UnattendedISOResourceModel)
    (hov₁ : plan₁.PathOverride = TFString.value "tmp")
    (hov₂ : plan₂.PathOverride = TFString.value "tmp")
    (h₁ : (Create plan₁ env₁ fs).state = some st₁)
    (h₂ : (Create plan₂ env₂ (Create plan₁ env₁ fs).fs).state = some st₂)
    (hfresh : fsLookup (Create plan₁ env₁ fs).fs
        ("/tmp/" ++ tempPatternName plan₂.FileName.goString env₂.createTempRand) = none) :
    st₁.ResultPath = TFString.value (tempPathOf plan₁ env₁)
    ∧ (∃ nm, st₁.ResultPath = TFString.value ("/tmp/" ++ nm))
    ∧ fsLookup (Create plan₁ env₁ fs).fs (tempPathOf plan₁ env₁)
        = some (FileData.image (imgOf plan₁))
    ∧ st₁.ResultPath ≠ st₂.ResultPath := by
  obtain ⟨hst₁, hfs₁⟩ := create_state_eq_of_success plan₁ env₁ fs st₁ h₁
  obtain ⟨hst₂, _⟩ := create_state_eq_of_success plan₂ env₂ _ st₂ h₂
  have hp₁ : st₁.ResultPath = TFString.value (tempPathOf plan₁ env₁) := by
    rw [hst₁]
  have hp₂ : st₂.ResultPath = TFString.value (tempPathOf plan₂ env₂) := by
    rw [hst₂]
  have hlook : fsLookup (Create plan₁ env₁ fs).fs (tempPathOf plan₁ env₁)
      = some (FileData.image (imgOf plan₁)) := by
    rw [hfs₁]; exact fsLookup_fsSet _ _ _
  refine ⟨hp₁, ⟨tempPatternName plan₁.FileName.goString env₁.createTempRand, by
    simp [hp₁, tempPathOf]⟩, hlook, ?_⟩
  intro heq
  rw [hp₁, hp₂] at heq
  have hpath : tempPathOf plan₁ env₁ = tempPathOf plan₂ env₂ := by
    simpa using heq
  have hfresh' : fsLookup (Create plan₁ env₁ fs).fs (tempPathOf plan₂ env₂) = none := hfresh
  rw [← hpath] at hfresh'
  rw [hlook] at hfresh'
  exact Option.noConfusion hfresh'

/-- Witness for claim C2: two concrete sentinel-default creates, random
components `123` then `456`, produce distinct recorded paths. -/
theorem create_tmp_sentinel_unique_temp_path_witness :
    planTmpA.PathOverride = TFString.value "tmp"
    ∧ planTmpB.PathOverride = TFString.value "tmp"
    ∧ (Create planTmpA okEnv []).state = some cStA
    ∧ (Create planTmpB okEnv2 (Create planTmpA okEnv []).fs).state = some cStB
    ∧ fsLookup (Create planTmpA okEnv []).fs
        ("/tmp/" ++ tempPatternName planTmpB.FileName.goString okEnv2.createTempRand) = none
    ∧ cStA.ResultPath ≠ cStB.ResultPath :=
  ⟨by decide, by decide, by decide, by decide, by decide,
   (create_tmp_sentinel_unique_temp_path planTmpA planTmpB okEnv okEnv2 [] cStA cStB
     (by decide) (by decide) (by decide) (by decide) (by decide)).2.2.2⟩

/-- Claim C3: the claim says the image contains an `unattend.xml` entry iff
xml_content is non-empty.  The code adds the entry unconditionally, because
`XMLContent.String()` is the quoted representation and never the empty
string: with xml_content declared as the empty string, Create succeeds and
the produced image still contains an `unattend.xml` entry (whose content is
the two-character quoted form of the empty string). -/
theorem create_empty_xml_still_adds_entry :
    planEmptyXml.XMLContent = TFString.value ""
    ∧ (Create planEmptyXml okEnv []).state = some
        ⟨TFString.value "example-id", TFString.value "a.iso", TFString.value "tmp",
         TFString.value "", TFString.value "/tmp/\"a.iso\"123"⟩
    ∧ fsLookup (Create planEmptyXml okEnv []).fs "/tmp/\"a.iso\"123"
        = some (FileData.image ⟨"unattend", [("unattend.xml", "\"\"")]⟩)
    ∧ ([("unattend.xml", "\"\"")] : List (String × String)) ≠ [] := by
  decide

/-- Claim C4: the claim says decoding the built image recovers xml_content
byte-for-byte.  It does not: the entry's content is the `%q`-quoted
representation of xml_content — for declared payload `<x/>` the stored
content is `"<x/>"` with literal quote characters, which differs from
`<x/>`. -/
theorem create_payload_not_roundtripped :
    planData.XMLContent = TFString.value "<x/>"
    ∧ fsLookup (Create planData okEnv []).fs "/tmp/\"answer.iso\"123"
        = some (FileData.image ⟨"unattend", [("unattend.xml", "\"<x/>\"")]⟩)
    ∧ ("\"<x/>\"" : String) ≠ "<x/>" := by
  decide

/-- Claim C5: if any step of Create fails — plan decode, writer
initialisation, file add, image serialisation, destination file creation or
byte write — Create reports an error and commits no tracked state. -/
theorem create_failure_commits_no_state (plan : UnattendedISOResourceModel)
    (env : GoEnv) (fs : FS)
    (h : env.planGetError = true ∨ env.newWriterFails = true ∨
         env.addFileFails = true ∨ env.writeToFails = true ∨
         env.createTempFails = true ∨ env.fileWriteFails = true) :
    (Create plan env fs).state = none ∧ (Create plan env fs).diagsHasError = true :=
  create_state_none_of_flag plan env fs h

/-- Witness for claim C5: a failing `iso9660.NewWriter` leaves no state. -/
theorem create_failure_commits_no_state_witness :
    (newWriterFailEnv.planGetError = true ∨ newWriterFailEnv.newWriterFails = true ∨
     newWriterFailEnv.addFileFails = true ∨ newWriterFailEnv.writeToFails = true ∨
     newWriterFailEnv.createTempFails = true ∨ newWriterFailEnv.fileWriteFails = true)
    ∧ ((Create planData newWriterFailEnv []).state = none
       ∧ (Create planData newWriterFailEnv []).diagsHasError = true) :=
  ⟨by decide, create_failure_commits_no_state planData newWriterFailEnv [] (by decide)⟩

/-- Claim C6: Read is a no-op passthrough — it re-emits the prior state
unchanged, leaves the filesystem untouched, and its output is independent of
the filesystem contents (it never checks whether the image file still
exists). -/
theorem read_is_noop_passthrough (prior : UnattendedISOResourceModel) (e : Bool)
    (fs fs' : FS) :
    (Read prior e fs).state = prior
    ∧ (Read prior e fs).fs = fs
    ∧ (Read prior e fs).state = (Read prior e fs').state := by
  cases e <;> simp [Read]

/-- Claim C7: Update performs no filesystem effect — every path's on-disk
content after Update equals its content before (in particular whatever
Create wrote stays unchanged even when xml_content changed) — and on
success it re-emits the host-merged plan data as the new state. -/
theorem update_no_filesystem_effect (plan prior : UnattendedISOResourceModel)
    (e : Bool) (fs : FS) (p : String) :
    (Update plan prior e fs).fs = fs
    ∧ fsLookup (Update plan prior e fs).fs p = fsLookup fs p
    ∧ (Update plan prior false fs).newState = plan := by
  cases e <;> simp [Update]

/-- Claim C8: Delete removes only the tracked state (the framework forgets
it on an error-free return) and performs no filesystem cleanup: every
path's content, in particular the previously written image file, is still
present afterwards. -/
theorem delete_keeps_artifact (prior : UnattendedISOResourceModel) (e : Bool)
    (fs : FS) (p : String) :
    (Delete prior e fs).fs = fs
    ∧ fsLookup (Delete prior e fs).fs p = fsLookup fs p
    ∧ (Delete prior false fs).stateRemoved = true := by
  cases e <;> simp [Delete]

/-- Claim C9: the claim says the destination file handle is released on all
exit paths.  The source never calls `file.Close()`: on the concrete run that
succeeds, and on the one whose byte write fails, the handle acquired from
the OS is still open when Create returns. -/
theorem create_never_closes_file_handle :
    (Create planData okEnv []).state = some cSt1
    ∧ (Create planData okEnv []).openHandles = ["/tmp/\"answer.iso\"123"]
    ∧ (Create planData failWriteEnv []).state = none
    ∧ (Create planData failWriteEnv []).openHandles = ["/tmp/\"answer.iso\"123"]
    ∧ (["/tmp/\"answer.iso\"123"] : List String) ≠ [] := by
  decide

/-- Claim C10: every successful Create commits the constant identifier
`example-id`, so any two successfully created declarations carry identical
ids. -/
theorem create_assigns_constant_id
    (plan₁ plan₂ : UnattendedISOResourceModel) (env₁ env₂ : GoEnv) (fs₁ fs₂ : FS)
    (st₁ st₂ : UnattendedISOResourceModel)
    (h₁ : (Create plan₁ env₁ fs₁).state = some st₁)
    (h₂ : (Create plan₂ env₂ fs₂).state = some st₂) :
    st₁.Id = TFString.value "example-id" ∧ st₂.Id = st₁.Id := by
  obtain ⟨hst₁, _⟩ := create_state_eq_of_success plan₁ env₁ fs₁ st₁ h₁
  obtain ⟨hst₂, _⟩ := create_state_eq_of_success plan₂ env₂ fs₂ st₂ h₂
  rw [hst₁, hst₂]
  exact ⟨rfl, rfl⟩

/-- Witness for claim C10: two distinct concrete declarations both receive
id `example-id`. -/
theorem create_assigns_constant_id_witness :
    (Create planData okEnv []).state = some cSt1
    ∧ (Create planTmpA okEnv []).state = some cStA
    ∧ (cSt1.Id = TFString.value "example-id" ∧ cStA.Id = cSt1.Id) :=
  ⟨by decide, by decide,
   create_assigns_constant_id planData planTmpA okEnv okEnv [] [] cSt1 cStA
     (by decide) (by decide)⟩
